import Mathlib

/-!
Shallow embedding of the IR remote relay controller (src/IRonoff.ino).

The sketch learns a 32-bit fingerprint of an IR transmission and drives a
relay for a configurable timeout whenever the learned fingerprint is seen
again.  Machine integers are modelled as Nat with explicit reductions:
`unsigned long` (32-bit on AVR) arithmetic is taken modulo U32 where the
source can overflow, and `unsigned int` (16-bit on AVR) addition modulo U16.
The C floating literal `.8` in `compare` is modelled as the exact rational
4/5, with the comparisons cleared of denominators (`newval < oldval * .8`
becomes `5 * newval < 4 * oldval`); for the 16-bit pulse durations that
reach `compare`, the device's binary floating comparison and the exact
rational comparison agree, since the rounding error of `x * .8` is far
below the distance to the nearest integer threshold.

Hardware side effects are modelled as fields of an explicit `State`:
the EEPROM cells backing the learned code and the timeout, the two output
pins, and a counter of indicator pulses emitted by `blink`.  `millis()` is
read at six call sites inside `loop`; each call site gets its own time
parameter (the `Times` structure), since the blocking `blink` delays make
the clock advance inside one iteration.
-/

namespace IRonoff

-- #define MAX_TIME 10000  (IRonoff.ino line 68)
def MAX_TIME : Nat := 10000

-- #define DEFAULT_TIME 5000  (line 69)
def DEFAULT_TIME : Nat := 5000

-- #define FNV_PRIME_32 16777619  (line 75)
def FNV_PRIME_32 : Nat := 16777619

-- #define FNV_BASIS_32 2166136261  (line 76)
def FNV_BASIS_32 : Nat := 2166136261

-- 2 ^ 32, the modulus of `unsigned long` arithmetic on the AVR target.
def U32 : Nat := 4294967296

-- 2 ^ 16, the modulus of `unsigned int` arithmetic on the AVR target.
def U16 : Nat := 65536

/-- Wrap-safe unsigned 32-bit subtraction: the value of the C expression
`a - b` at type `unsigned long`, i.e. (a - b) modulo 2^32. -/
def usub (a b : Nat) : Nat := (a % U32 + U32 - b % U32) % U32

/-- Lines 174-185: `int compare(unsigned int oldval, unsigned int newval)`.
Returns 0 if newval is shorter, 1 if roughly equal, 2 if longer, with the
20% tolerance thresholds `newval < oldval * .8` and `oldval < newval * .8`
(modelled exactly as 4/5, see the file header). -/
def compare (oldval newval : Nat) : Nat :=
  if 5 * newval < 4 * oldval then 0
  else if 5 * oldval < 4 * newval then 2
  else 1

/-- Lines 196-204, loop body of `decodeHash`: the C loop
`for (int i = 1; i+2 < rawlen; i++) hash = (hash * FNV_PRIME_32) ^ compare(rawbuf[i], rawbuf[i+2]);`
walks indices i = 1, 2, ... while i+2 < rawlen, comparing rawbuf[i] with
rawbuf[i+2].  Recast structurally over the suffix rawbuf[i..]: while at
least three entries remain, fold the head against the entry two further
on, then advance by one.  The 32-bit multiplication wraps modulo U32. -/
def hashSeq : Nat → List Nat → Nat
  | hash, a :: b :: c :: rest =>
      hashSeq ((hash * FNV_PRIME_32) % U32 ^^^ compare a c) (b :: c :: rest)
  | hash, _ => hash

/-- Lines 196-204: `unsigned long decodeHash(decode_results *results)`.
The index loop starts at i = 1, i.e. it runs `hashSeq` on the suffix of the
raw buffer that drops index 0, starting from the FNV basis. -/
def decodeHash (raw : List Nat) : Nat :=
  hashSeq FNV_BASIS_32 (raw.drop 1)

/-- Reference fingerprint, written from the specification text (section 4.1):
for each index i from 1 to L-3 inclusive, fold the ternary symbol
`compare(seq[i], seq[i+2])` by `hash = (hash * FNV_PRIME) XOR symbol` with
the multiplication wrapping modulo 2^32, starting from the FNV-32 basis
2166136261.  Used only to compare against `decodeHash`. -/
def fingerprintSpec (raw : List Nat) : Nat :=
  (List.range' 1 (raw.length - 3)).foldl
    (fun h j => (h * FNV_PRIME_32) % U32 ^^^ compare (raw.getD j 0) (raw.getD (j + 2) 0))
    FNV_BASIS_32

/-- Controller state: the global variables of the sketch together with the
modelled environment (EEPROM cells, output pins, indicator pulse count). -/
structure State where
  /-- `unsigned long storedCode` (line 82). -/
  storedCode : Nat
  /-- `unsigned int storedTime` (line 88). -/
  storedTime : Nat
  /-- EEPROM cell at ADDR_CODE. -/
  eepromCode : Nat
  /-- EEPROM cell at ADDR_TIME. -/
  eepromTime : Nat
  /-- `unsigned long timeMs` (line 94), the last-adjust timestamp. -/
  timeMs : Nat
  /-- `unsigned long codeMs` (line 95), the last-match timestamp. -/
  codeMs : Nat
  /-- `int relayStatus` (line 100), 0 or 1, modelled as Bool. -/
  relayStatus : Bool
  /-- Level of RELAY_PIN. -/
  relayPin : Bool
  /-- Level of STATUS_LED. -/
  ledPin : Bool
  /-- Number of indicator pulses emitted so far by `blink`. -/
  blinks : Nat
  deriving Repr, DecidableEq

/-- Lines 155-161: `void blink()` drives STATUS_LED high for 200ms then low
for 200ms: one indicator pulse, leaving the LED low. -/
def blink (s : State) : State :=
  { s with ledPin := false, blinks := s.blinks + 1 }

/-- Lines 210-220: `void saveTimeout(unsigned int newTime)`.
If newTime exceeds MAX_TIME it is reassigned to 1000 and an extra blink is
emitted; then one unconditional blink, the EEPROM write at ADDR_TIME, and
the assignment to `storedTime`.  The reassignment is inlined per branch. -/
def saveTimeout (s : State) (newTime : Nat) : State :=
  if newTime > MAX_TIME then
    let s2 := blink s
    let s3 := blink s2
    { s3 with eepromTime := 1000, storedTime := 1000 }
  else
    let s2 := blink s
    { s2 with eepromTime := newTime, storedTime := newTime }

/-- Lines 226-234, first block of `loop`: if MEMORY_TIME_PIN reads LOW and
more than 1000ms have elapsed since `timeMs`, call
`saveTimeout(storedTime + 1000)` (the `unsigned int` sum wraps modulo U16);
then, still inside the pin-LOW branch, set `timeMs` to the current time.
t1 is `millis()` at line 229, t2 at line 233. -/
def adjustStep (s : State) (timePinLow : Bool) (t1 t2 : Nat) : State :=
  if timePinLow then
    let s2 := if usub t1 s.timeMs > 1000
              then saveTimeout s ((s.storedTime + 1000) % U16)
              else s
    { s2 with timeMs := t2 }
  else s

/-- Lines 244-250: if MEMORY_CODE_PIN reads LOW, write the hash to EEPROM at
ADDR_CODE, assign `storedCode = hash`, and blink.  The source also sets a
local `saveMode = 1` here which is never read anywhere, so it is omitted. -/
def learnStep (s : State) (codePinLow : Bool) (hash : Nat) : State :=
  if codePinLow then
    blink { s with eepromCode := hash, storedCode := hash }
  else s

/-- Lines 252-261: if `storedCode == hash`, then if more than 250ms have
elapsed since `codeMs` and the relay is off, drive RELAY_PIN and STATUS_LED
high and toggle `relayStatus`; in either case set `codeMs` to the current
time.  t3 is `millis()` at line 254, t4 at line 260. -/
def matchStep (s : State) (hash t3 t4 : Nat) : State :=
  if s.storedCode = hash then
    let s2 := if usub t3 s.codeMs > 250 ∧ s.relayStatus = false
              then { s with relayPin := true, ledPin := true,
                            relayStatus := !s.relayStatus }
              else s
    { s2 with codeMs := t4 }
  else s

/-- Lines 236-273: the body of the `if (irrecv.decode(&results))` block:
decode the hash, run the learn branch, then the match branch (the debug
printing and `irrecv.resume()` have no modelled effect). -/
def receiveStep (s : State) (codePinLow : Bool) (raw : List Nat) (t3 t4 : Nat) : State :=
  matchStep (learnStep s codePinLow (decodeHash raw)) (decodeHash raw) t3 t4

/-- Lines 275-281: if more than `storedTime` ms have elapsed since `codeMs`
(wrap-safe) and the relay is on, drive STATUS_LED and RELAY_PIN low, set
`codeMs` to the current time, and toggle `relayStatus`.  t5 is `millis()`
at line 275, t6 at line 279. -/
def autoOffStep (s : State) (t5 t6 : Nat) : State :=
  if usub t5 s.codeMs > s.storedTime ∧ s.relayStatus = true then
    { s with ledPin := false, relayPin := false, codeMs := t6,
             relayStatus := !s.relayStatus }
  else s

/-- Per-iteration inputs read from the environment: the two button levels
(true = reads LOW = pressed, the buttons are active-low with pull-ups) and
the optional completed IR transmission delivered by `irrecv.decode`. -/
structure Inputs where
  timePinLow : Bool
  codePinLow : Bool
  received : Option (List Nat)
  deriving Repr

/-- The `millis()` readings at the six call sites of one `loop` iteration
(lines 229, 233, 254, 260, 275, 279 in order). -/
structure Times where
  t1 : Nat
  t2 : Nat
  t3 : Nat
  t4 : Nat
  t5 : Nat
  t6 : Nat
  deriving Repr

/-- Lines 224-282: one iteration of `void loop()`: timeout adjustment,
then the receive block when a transmission is pending, then relay
auto-off. -/
def loopIter (s : State) (inp : Inputs) (tm : Times) : State :=
  let s1 := adjustStep s inp.timePinLow tm.t1 tm.t2
  let s2 := match inp.received with
            | none => s1
            | some raw => receiveStep s1 inp.codePinLow raw tm.t3 tm.t4
  autoOffStep s2 tm.t5 tm.t6

/-- Lines 117-147: `void setup()` reads `storedCode` and `storedTime` from
EEPROM and replaces a `storedTime` of 0 or above MAX_TIME with DEFAULT_TIME.
The globals `timeMs` and `codeMs` are initialised from `millis()` (t0);
`relayStatus` starts at 0 and the output pins start low. -/
def setupState (eepromCode eepromTime t0 : Nat) : State :=
  { storedCode := eepromCode
    storedTime := if eepromTime = 0 ∨ eepromTime > MAX_TIME
                  then DEFAULT_TIME else eepromTime
    eepromCode := eepromCode
    eepromTime := eepromTime
    timeMs := t0
    codeMs := t0
    relayStatus := false
    relayPin := false
    ledPin := false
    blinks := 0 }

/-- Line 231: the argument actually passed to `saveTimeout` by the timeout
adjustment branch, `storedTime + 1000` at type `unsigned int`. -/
def timeoutIncrease (s : State) : State :=
  saveTimeout s ((s.storedTime + 1000) % U16)

/-! ## Field bookkeeping lemmas: which step touches which state field -/

theorem saveTimeout_storedTime (s : State) (n : Nat) :
    (saveTimeout s n).storedTime = if n > MAX_TIME then 1000 else n := by
  cases s
  simp only [saveTimeout, blink]
  split_ifs <;> rfl

theorem saveTimeout_eepromTime (s : State) (n : Nat) :
    (saveTimeout s n).eepromTime = (saveTimeout s n).storedTime := by
  cases s
  simp only [saveTimeout, blink]
  split_ifs <;> rfl

theorem saveTimeout_timeMs (s : State) (n : Nat) :
    (saveTimeout s n).timeMs = s.timeMs := by
  cases s
  simp only [saveTimeout, blink]
  split_ifs <;> rfl

theorem learnStep_timeMs (s : State) (p : Bool) (h : Nat) :
    (learnStep s p h).timeMs = s.timeMs := by
  cases s
  cases p <;> simp [learnStep, blink]

theorem learnStep_storedTime (s : State) (p : Bool) (h : Nat) :
    (learnStep s p h).storedTime = s.storedTime := by
  cases s
  cases p <;> simp [learnStep, blink]

theorem matchStep_timeMs (s : State) (h t3 t4 : Nat) :
    (matchStep s h t3 t4).timeMs = s.timeMs := by
  cases s
  simp only [matchStep]
  split_ifs <;> rfl

theorem matchStep_storedTime (s : State) (h t3 t4 : Nat) :
    (matchStep s h t3 t4).storedTime = s.storedTime := by
  cases s
  simp only [matchStep]
  split_ifs <;> rfl

theorem autoOffStep_timeMs (s : State) (t5 t6 : Nat) :
    (autoOffStep s t5 t6).timeMs = s.timeMs := by
  cases s
  simp only [autoOffStep]
  split_ifs <;> rfl

theorem autoOffStep_storedTime (s : State) (t5 t6 : Nat) :
    (autoOffStep s t5 t6).storedTime = s.storedTime := by
  cases s
  simp only [autoOffStep]
  split_ifs <;> rfl

theorem receiveStep_timeMs (s : State) (p : Bool) (raw : List Nat) (t3 t4 : Nat) :
    (receiveStep s p raw t3 t4).timeMs = s.timeMs := by
  unfold receiveStep
  rw [matchStep_timeMs, learnStep_timeMs]

theorem receiveStep_storedTime (s : State) (p : Bool) (raw : List Nat) (t3 t4 : Nat) :
    (receiveStep s p raw t3 t4).storedTime = s.storedTime := by
  unfold receiveStep
  rw [matchStep_storedTime, learnStep_storedTime]

/-! ## Claims -/

/-- Claim C9: for all positive inputs a, b, `compare a b` returns exactly
one of the values 0, 1, 2 (it is a function, so membership in the set is
exactness), and `compare a a = 1`, using the 20% tolerance thresholds
`new < old * 0.8` and `old < new * 0.8`. -/
theorem compare_total (a b : Nat) (ha : 0 < a) (_hb : 0 < b) :
    (compare a b = 0 ∨ compare a b = 1 ∨ compare a b = 2) ∧ compare a a = 1 := by
  unfold compare
  constructor
  · split_ifs <;> simp
  · split_ifs <;> omega

/-- Witness for C9 at a = 3, b = 7. -/
theorem compare_total_witness :
    (compare 3 7 = 0 ∨ compare 3 7 = 1 ∨ compare 3 7 = 2) ∧ compare 3 3 = 1 :=
  compare_total 3 7 (by decide) (by decide)

/-- Claim C4: at startup a persisted timeout of 0 or above 10000 becomes
the default 5000, a persisted timeout in (0, 10000] is kept unchanged, and
the persisted code is loaded unaltered. -/
theorem setup_timeout_spec (c v t0 : Nat) :
    ((v = 0 ∨ v > MAX_TIME) → (setupState c v t0).storedTime = DEFAULT_TIME) ∧
    (0 < v → v ≤ MAX_TIME → (setupState c v t0).storedTime = v) ∧
    (setupState c v t0).storedCode = c := by
  simp only [setupState, MAX_TIME, DEFAULT_TIME]
  refine ⟨fun h => ?_, fun h1 h2 => ?_, trivial⟩ <;> split_ifs <;> omega

/-- Witness for C4: a persisted 50000 becomes 5000, a persisted 123 is kept. -/
theorem setup_timeout_spec_witness :
    (setupState 7 50000 0).storedTime = DEFAULT_TIME ∧
    (setupState 7 123 0).storedTime = 123 :=
  ⟨(setup_timeout_spec 7 50000 0).1 (by decide),
   (setup_timeout_spec 7 123 0).2.1 (by decide) (by decide)⟩

/-- Claim C3: a timeout-increase action stores storedTime + 1000 when that
sum does not exceed 10000 and exactly 1000 otherwise (a reset, not a clamp),
persists it, and keeps the in-memory timeout equal to the persisted value.
The hypothesis is the storedTime range invariant established at setup and
preserved by every iteration (claim C10), under which the `unsigned int`
sum does not wrap. -/
theorem timeoutIncrease_spec (s : State) (h : s.storedTime ≤ MAX_TIME) :
    ((timeoutIncrease s).storedTime =
      if s.storedTime + 1000 > MAX_TIME then 1000 else s.storedTime + 1000) ∧
    (timeoutIncrease s).eepromTime = (timeoutIncrease s).storedTime := by
  have hm : (s.storedTime + 1000) % U16 = s.storedTime + 1000 := by
    simp only [MAX_TIME] at h
    simp only [U16]
    omega
  unfold timeoutIncrease
  rw [hm]
  exact ⟨saveTimeout_storedTime s _, saveTimeout_eepromTime s _⟩

/-- Witness for C3 at storedTime = 9500: the increase overshoots 10000 and
resets the stored and persisted timeout to 1000. -/
theorem timeoutIncrease_spec_witness :
    (timeoutIncrease ⟨0, 9500, 0, 9500, 0, 0, false, false, false, 0⟩).storedTime = 1000 ∧
    (timeoutIncrease ⟨0, 9500, 0, 9500, 0, 0, false, false, false, 0⟩).eepromTime = 1000 := by
  have h := timeoutIncrease_spec ⟨0, 9500, 0, 9500, 0, 0, false, false, false, 0⟩ (by decide)
  exact ⟨h.1.trans (by decide), (h.2.trans h.1).trans (by decide)⟩

/-- Counterexample to C8 as stated: an increase that overshoots the ceiling
(to 10500) emits two indicator pulses, while a successful increase (to
5000) emits one — the blink patterns are not the same. -/
theorem saveTimeout_blinks_cex :
    (saveTimeout ⟨0, 9500, 0, 9500, 0, 0, false, false, false, 0⟩ 10500).blinks = 2 ∧
    (saveTimeout ⟨0, 9500, 0, 9500, 0, 0, false, false, false, 0⟩ 5000).blinks = 1 ∧
    (2 : Nat) ≠ 1 := by decide

/-- Claim C8 (amended): a timeout-increase that exceeds the 10000ms ceiling
emits two indicator pulses, while a successful increase emits one: the
reset case is distinguishable from success by blink count. -/
theorem saveTimeout_blinks (s : State) (n : Nat) :
    (MAX_TIME < n → (saveTimeout s n).blinks = s.blinks + 2) ∧
    (n ≤ MAX_TIME → (saveTimeout s n).blinks = s.blinks + 1) := by
  cases s
  constructor <;> intro h
  · simp only [saveTimeout, blink]
    rw [if_pos h]
  · simp only [saveTimeout, blink]
    rw [if_neg (by omega)]

/-- Witness for C8 (amended) at concrete arguments 10500 and 5000. -/
theorem saveTimeout_blinks_witness :
    (saveTimeout ⟨0, 9500, 0, 9500, 0, 0, false, false, false, 0⟩ 10500).blinks = 0 + 2 ∧
    (saveTimeout ⟨0, 9500, 0, 9500, 0, 0, false, false, false, 0⟩ 5000).blinks = 0 + 1 :=
  ⟨(saveTimeout_blinks ⟨0, 9500, 0, 9500, 0, 0, false, false, false, 0⟩ 10500).1 (by decide),
   (saveTimeout_blinks ⟨0, 9500, 0, 9500, 0, 0, false, false, false, 0⟩ 5000).2 (by decide)⟩

/-- Counterexample to C7 as stated: in an iteration where the adjust button
does not read pressed, timeMs keeps its old value 5 instead of being
updated to the current reading 77. -/
theorem adjust_timestamp_cex :
    (loopIter ⟨0, 5000, 0, 5000, 5, 0, false, false, false, 0⟩ ⟨false, false, none⟩
      ⟨77, 77, 77, 77, 77, 77⟩).timeMs = 5 ∧ (5 : Nat) ≠ 77 := by decide

/-- Claim C7 (amended): the last-adjust timestamp timeMs is updated exactly
in the iterations where the adjust button reads pressed — regardless of
whether the timeout increase fired — so the 1000ms debounce window is
measured from the last time the button was observed pressed; when the
button is not pressed, timeMs is left unchanged. -/
theorem adjust_timestamp_spec (s : State) (inp : Inputs) (tm : Times) :
    (loopIter s inp tm).timeMs = if inp.timePinLow then tm.t2 else s.timeMs := by
  simp only [loopIter]
  rw [autoOffStep_timeMs]
  cases hr : inp.received with
  | none =>
    cases hp : inp.timePinLow <;>
      simp [adjustStep, hp, saveTimeout_timeMs]
  | some raw =>
    rw [receiveStep_timeMs]
    cases hp : inp.timePinLow <;>
      simp [adjustStep, hp, saveTimeout_timeMs]

/-- Claim C1 (code bug evaluation): in an iteration that receives a
transmission with the learn button pressed, starting from a state with the
relay off and a stale last-match timestamp, the iteration does overwrite
and persist the learned code with the fingerprint of the transmission —
but the relay comes ON in that same iteration: the just-learned code
trivially equals the received hash, so the match branch fires.  The source
sets a `saveMode` flag in the learn branch that is never read, so the
activation is not suppressed during a learn. -/
theorem learn_activates_relay :
    (loopIter ⟨0, 5000, 0, 5000, 0, 0, false, false, false, 0⟩
        ⟨false, true, some [100, 100, 100]⟩ ⟨0, 0, 1000, 1000, 1000, 1000⟩).storedCode
      = decodeHash [100, 100, 100] ∧
    (loopIter ⟨0, 5000, 0, 5000, 0, 0, false, false, false, 0⟩
        ⟨false, true, some [100, 100, 100]⟩ ⟨0, 0, 1000, 1000, 1000, 1000⟩).eepromCode
      = decodeHash [100, 100, 100] ∧
    (loopIter ⟨0, 5000, 0, 5000, 0, 0, false, false, false, 0⟩
        ⟨false, true, some [100, 100, 100]⟩ ⟨0, 0, 1000, 1000, 1000, 1000⟩).relayStatus
      = true ∧
    (loopIter ⟨0, 5000, 0, 5000, 0, 0, false, false, false, 0⟩
        ⟨false, true, some [100, 100, 100]⟩ ⟨0, 0, 1000, 1000, 1000, 1000⟩).relayPin
      = true := by decide

/-- Counterexample to C5 as stated: with the received fingerprint equal to
the learned code, the relay off, and exactly 250ms elapsed since the last
recorded match ("at least 250ms have elapsed"), the match branch does NOT
turn the relay on, because the source requires strictly more than 250ms. -/
theorem match_at_exactly_250_cex :
    decodeHash [100, 100, 100]
      = (⟨2166136261, 5000, 2166136261, 5000, 0, 0, false, false, false, 0⟩ : State).storedCode ∧
    (⟨2166136261, 5000, 2166136261, 5000, 0, 0, false, false, false, 0⟩ : State).relayStatus = false ∧
    usub 250 (⟨2166136261, 5000, 2166136261, 5000, 0, 0, false, false, false, 0⟩ : State).codeMs = 250 ∧
    (matchStep ⟨2166136261, 5000, 2166136261, 5000, 0, 0, false, false, false, 0⟩
        (decodeHash [100, 100, 100]) 250 250).relayStatus = false ∧
    (matchStep ⟨2166136261, 5000, 2166136261, 5000, 0, 0, false, false, false, 0⟩
        (decodeHash [100, 100, 100]) 250 250).relayPin = false := by decide

/-- Claim C5 (amended): when the received fingerprint equals the learned
code, the relay and indicator are turned on exactly when the relay is
currently off and strictly more than 250ms have elapsed since the last
recorded match (wrap-safe); and the last-match timestamp codeMs is
refreshed to the current reading whenever the fingerprint equals the
learned code, regardless of whether the relay was turned on. -/
theorem matchStep_spec (s : State) (hash t3 t4 : Nat) (hm : s.storedCode = hash) :
    (matchStep s hash t3 t4).codeMs = t4 ∧
    (if s.relayStatus = false ∧ usub t3 s.codeMs > 250 then
      (matchStep s hash t3 t4).relayStatus = true ∧
      (matchStep s hash t3 t4).relayPin = true ∧
      (matchStep s hash t3 t4).ledPin = true
    else
      (matchStep s hash t3 t4).relayStatus = s.relayStatus ∧
      (matchStep s hash t3 t4).relayPin = s.relayPin ∧
      (matchStep s hash t3 t4).ledPin = s.ledPin) := by
  simp only [matchStep, if_pos hm]
  refine ⟨by trivial, ?_⟩
  by_cases hc : s.relayStatus = false ∧ usub t3 s.codeMs > 250
  · rw [if_pos hc, if_pos ⟨hc.2, hc.1⟩]
    refine ⟨?_, rfl, rfl⟩
    rw [hc.1]
    rfl
  · rw [if_neg hc, if_neg (fun hx => hc ⟨hx.2, hx.1⟩)]
    exact ⟨rfl, rfl, rfl⟩

/-- Witness for C5 (amended): a match with the relay off and 300ms elapsed
turns the relay on and refreshes the timestamp. -/
theorem matchStep_spec_witness :
    (matchStep ⟨2166136261, 5000, 2166136261, 5000, 0, 0, false, false, false, 0⟩
        2166136261 300 300).codeMs = 300 ∧
    (if (⟨2166136261, 5000, 2166136261, 5000, 0, 0, false, false, false, 0⟩ : State).relayStatus = false ∧
        usub 300 (⟨2166136261, 5000, 2166136261, 5000, 0, 0, false, false, false, 0⟩ : State).codeMs > 250 then
      (matchStep ⟨2166136261, 5000, 2166136261, 5000, 0, 0, false, false, false, 0⟩
          2166136261 300 300).relayStatus = true ∧
      (matchStep ⟨2166136261, 5000, 2166136261, 5000, 0, 0, false, false, false, 0⟩
          2166136261 300 300).relayPin = true ∧
      (matchStep ⟨2166136261, 5000, 2166136261, 5000, 0, 0, false, false, false, 0⟩
          2166136261 300 300).ledPin = true
    else
      (matchStep ⟨2166136261, 5000, 2166136261, 5000, 0, 0, false, false, false, 0⟩
          2166136261 300 300).relayStatus = false ∧
      (matchStep ⟨2166136261, 5000, 2166136261, 5000, 0, 0, false, false, false, 0⟩
          2166136261 300 300).relayPin = false ∧
      (matchStep ⟨2166136261, 5000, 2166136261, 5000, 0, 0, false, false, false, 0⟩
          2166136261 300 300).ledPin = false) :=
  matchStep_spec ⟨2166136261, 5000, 2166136261, 5000, 0, 0, false, false, false, 0⟩
    2166136261 300 300 (by decide)

theorem autoOffStep_inv (s : State) (t5 t6 : Nat)
    (hon : (autoOffStep s t5 t6).relayStatus = true) :
    usub t5 (autoOffStep s t5 t6).codeMs ≤ (autoOffStep s t5 t6).storedTime := by
  by_cases hc : usub t5 s.codeMs > s.storedTime ∧ s.relayStatus = true
  · exfalso
    simp only [autoOffStep, if_pos hc] at hon
    rw [hc.2] at hon
    simp at hon
  · simp only [autoOffStep, if_neg hc] at hon ⊢
    have hA : ¬ usub t5 s.codeMs > s.storedTime := fun ha => hc ⟨ha, hon⟩
    omega

/-- Claim C6: if the relay is on and the wrap-safe elapsed time since the
last-match timestamp exceeds the stored timeout, the iteration turns the
relay and indicator off, flips the status to off, and refreshes the
timestamp to the current reading; consequently, at the end of any loop
iteration the relay is never on with more than storedTime ms elapsed (at
the auto-off check) since the last-match timestamp. -/
theorem relay_auto_off (s : State) (inp : Inputs) (tm : Times) :
    (s.relayStatus = true → usub tm.t5 s.codeMs > s.storedTime →
      (autoOffStep s tm.t5 tm.t6).relayStatus = false ∧
      (autoOffStep s tm.t5 tm.t6).relayPin = false ∧
      (autoOffStep s tm.t5 tm.t6).ledPin = false ∧
      (autoOffStep s tm.t5 tm.t6).codeMs = tm.t6) ∧
    ((loopIter s inp tm).relayStatus = true →
      usub tm.t5 (loopIter s inp tm).codeMs ≤ (loopIter s inp tm).storedTime) := by
  constructor
  · intro hon helapsed
    simp only [autoOffStep, if_pos (And.intro helapsed hon)]
    refine ⟨?_, by trivial, by trivial, by trivial⟩
    rw [hon]
    rfl
  · simp only [loopIter]
    intro hon
    exact autoOffStep_inv _ tm.t5 tm.t6 hon

/-- Witness for C6: an on-relay state whose last match was 6000ms ago with
a 5000ms timeout is switched off with the timestamp refreshed, and an
iteration that ends with the relay on is within its timeout window. -/
theorem relay_auto_off_witness :
    ((autoOffStep ⟨1, 5000, 1, 5000, 0, 0, true, true, true, 0⟩ 6000 6000).relayStatus = false ∧
     (autoOffStep ⟨1, 5000, 1, 5000, 0, 0, true, true, true, 0⟩ 6000 6000).relayPin = false ∧
     (autoOffStep ⟨1, 5000, 1, 5000, 0, 0, true, true, true, 0⟩ 6000 6000).ledPin = false ∧
     (autoOffStep ⟨1, 5000, 1, 5000, 0, 0, true, true, true, 0⟩ 6000 6000).codeMs = 6000) ∧
    usub 100 (loopIter ⟨1, 5000, 1, 5000, 0, 0, true, true, true, 0⟩ ⟨false, false, none⟩
        ⟨100, 100, 100, 100, 100, 100⟩).codeMs ≤
      (loopIter ⟨1, 5000, 1, 5000, 0, 0, true, true, true, 0⟩ ⟨false, false, none⟩
        ⟨100, 100, 100, 100, 100, 100⟩).storedTime :=
  ⟨(relay_auto_off ⟨1, 5000, 1, 5000, 0, 0, true, true, true, 0⟩ ⟨false, false, none⟩
      ⟨100, 100, 100, 100, 6000, 6000⟩).1 (by decide) (by decide),
   (relay_auto_off ⟨1, 5000, 1, 5000, 0, 0, true, true, true, 0⟩ ⟨false, false, none⟩
      ⟨100, 100, 100, 100, 100, 100⟩).2 (by decide)⟩

/-! ## Equivalence of the hash loop with the specification fold (C2) -/

theorem hashSeq_short (hash : Nat) (l : List Nat) (h : l.length < 3) :
    hashSeq hash l = hash := by
  cases l with
  | nil => rfl
  | cons a t =>
    cases t with
    | nil => rfl
    | cons b t2 =>
      cases t2 with
      | nil => rfl
      | cons c r => simp at h; omega

theorem hashSeq_eq_foldl (raw : List Nat) :
    ∀ k i hash, i + k + 2 = raw.length →
      hashSeq hash (raw.drop i) =
        (List.range' i k).foldl
          (fun h j => (h * FNV_PRIME_32) % U32 ^^^ compare (raw.getD j 0) (raw.getD (j + 2) 0))
          hash := by
  intro k
  induction k with
  | zero =>
    intro i hash h
    rw [List.range'_zero, List.foldl_nil]
    exact hashSeq_short hash (raw.drop i) (by rw [List.length_drop]; omega)
  | succ k ih =>
    intro i hash h
    have hi : i < raw.length := by omega
    have hi1 : i + 1 < raw.length := by omega
    have hi2 : i + 2 < raw.length := by omega
    have hd0 : raw.drop i = raw[i] :: raw.drop (i + 1) := List.drop_eq_getElem_cons hi
    have hd1 : raw.drop (i + 1) = raw[i + 1] :: raw.drop (i + 2) := List.drop_eq_getElem_cons hi1
    have hd2 : raw.drop (i + 2) = raw[i + 2] :: raw.drop (i + 3) := List.drop_eq_getElem_cons hi2
    rw [List.range'_succ, List.foldl_cons]
    rw [hd0, hd1, hd2, hashSeq]
    rw [← hd2, ← hd1]
    rw [ih (i + 1) _ (by omega)]
    have hg0 : raw.getD i 0 = raw[i] := by
      simp [List.getD_eq_getElem?_getD, List.getElem?_eq_getElem hi]
    have hg2 : raw.getD (i + 2) 0 = raw[i + 2] := by
      simp [List.getD_eq_getElem?_getD, List.getElem?_eq_getElem hi2]
    rw [hg0, hg2]

/-- Claim C2: `decodeHash` agrees with the reference definition written from
the specification — the FNV-1a-style fold of the ternary symbols
`compare(seq[i], seq[i+2])` for i from 1 to L-3 inclusive, starting at the
FNV-32 basis, with the multiplication wrapping modulo 2^32 — and in
particular returns the basis constant 2166136261 whenever L < 3. -/
theorem decodeHash_matches_spec (raw : List Nat) :
    decodeHash raw = fingerprintSpec raw ∧
    (raw.length < 3 → decodeHash raw = 2166136261) := by
  constructor
  · unfold decodeHash fingerprintSpec
    by_cases h3 : raw.length < 3
    · rw [hashSeq_short _ _ (by rw [List.length_drop]; omega)]
      have hz : raw.length - 3 = 0 := by omega
      rw [hz, List.range'_zero, List.foldl_nil]
    · have h := hashSeq_eq_foldl raw (raw.length - 3) 1 FNV_BASIS_32 (by omega)
      rw [h]
  · intro h3
    unfold decodeHash
    rw [hashSeq_short _ _ (by rw [List.length_drop]; omega)]
    rfl

/-- Witness for C2: a two-entry sequence is degenerate and hashes to the
basis constant. -/
theorem decodeHash_matches_spec_witness :
    decodeHash [100, 200] = 2166136261 :=
  (decodeHash_matches_spec [100, 200]).2 (by decide)

/-! ## The storedTime range invariant (C10) -/

theorem saveTimeout_inv (s : State) (n : Nat) (h : 0 < n) :
    0 < (saveTimeout s n).storedTime ∧ (saveTimeout s n).storedTime ≤ MAX_TIME := by
  rw [saveTimeout_storedTime]
  split_ifs with hc
  · simp only [MAX_TIME]
    omega
  · simp only [MAX_TIME] at hc ⊢
    omega

theorem adjustStep_inv (s : State) (p : Bool) (t1 t2 : Nat)
    (h1 : 0 < s.storedTime) (h2 : s.storedTime ≤ MAX_TIME) :
    0 < (adjustStep s p t1 t2).storedTime ∧
    (adjustStep s p t1 t2).storedTime ≤ MAX_TIME := by
  cases p with
  | false => exact ⟨h1, h2⟩
  | true =>
    simp only [adjustStep, if_true]
    by_cases hc : usub t1 s.timeMs > 1000
    · rw [if_pos hc]
      have hm : (s.storedTime + 1000) % U16 = s.storedTime + 1000 := by
        simp only [MAX_TIME] at h2
        simp only [U16]
        omega
      exact saveTimeout_inv s ((s.storedTime + 1000) % U16) (by rw [hm]; omega)
    · rw [if_neg hc]
      exact ⟨h1, h2⟩

/-- Claim C10: setup always establishes a storedTime in (0, 10000], and
every loop iteration preserves that range: the only mutation path is
`saveTimeout`, whose argument is at most 10000 + 1000 (no 16-bit wrap) and
which replaces any argument above 10000 with 1000 before storing. -/
theorem storedTime_invariant (c v t0 : Nat) (s : State) (inp : Inputs) (tm : Times)
    (h1 : 0 < s.storedTime) (h2 : s.storedTime ≤ MAX_TIME) :
    (0 < (setupState c v t0).storedTime ∧ (setupState c v t0).storedTime ≤ MAX_TIME) ∧
    (0 < (loopIter s inp tm).storedTime ∧ (loopIter s inp tm).storedTime ≤ MAX_TIME) := by
  constructor
  · simp only [setupState, MAX_TIME, DEFAULT_TIME]
    split_ifs <;> omega
  · simp only [loopIter]
    rw [autoOffStep_storedTime]
    cases hr : inp.received with
    | none => exact adjustStep_inv s inp.timePinLow tm.t1 tm.t2 h1 h2
    | some raw =>
      rw [receiveStep_storedTime]
      exact adjustStep_inv s inp.timePinLow tm.t1 tm.t2 h1 h2

/-- Witness for C10 at a concrete state, persisted value 0, and an
iteration with the adjust button held. -/
theorem storedTime_invariant_witness :
    (0 < (setupState 3 0 0).storedTime ∧ (setupState 3 0 0).storedTime ≤ MAX_TIME) ∧
    (0 < (loopIter ⟨0, 10000, 0, 10000, 0, 0, false, false, false, 0⟩ ⟨true, false, none⟩
        ⟨2000, 2000, 2000, 2000, 2000, 2000⟩).storedTime ∧
      (loopIter ⟨0, 10000, 0, 10000, 0, 0, false, false, false, 0⟩ ⟨true, false, none⟩
        ⟨2000, 2000, 2000, 2000, 2000, 2000⟩).storedTime ≤ MAX_TIME) :=
  storedTime_invariant 3 0 0 ⟨0, 10000, 0, 10000, 0, 0, false, false, false, 0⟩
    ⟨true, false, none⟩ ⟨2000, 2000, 2000, 2000, 2000, 2000⟩ (by decide) (by decide)

end IRonoff
